import Mathlib

/-!
Verification of the CrashScope incident enrichment and scoring pipeline.

Shallow embedding of the Python source:
  src/crashscope/utils/cache.py      (CacheManager)
  src/crashscope/features/weather.py (WeatherFeatureExtractor)
  src/crashscope/features/road.py    (RoadFeatureExtractor._process_osm_data)
  src/crashscope/features/engine.py  (party estimation)
  src/crashscope/api/tomtom.py       (extract_coordinates)
  src/main.py                        (dedup, risk scoring, risk factors)

Python dicts are modelled as insertion-ordered association lists; wall-clock
instants (time.time) and float-valued features are modelled as rationals;
machine ints as Int.  Fallible operations return Option.
-/

namespace CrashScope

/-- Lookup in an insertion-ordered association list (a Python dict read). -/
def alookup {κ α : Type} [DecidableEq κ] : List (κ × α) → κ → Option α
  | [], _ => none
  | (k, v) :: rest, key => if k = key then some v else alookup rest key

/-- Assignment into an insertion-ordered association list (a Python dict write):
replaces the value in place if the key is present, else appends at the end. -/
def ainsert {κ α : Type} [DecidableEq κ] : List (κ × α) → κ → α → List (κ × α)
  | [], key, v => [(key, v)]
  | (k, w) :: rest, key, v =>
      if k = key then (key, v) :: rest else (k, w) :: ainsert rest key v

/-- Deletion from an association list (a Python del statement).  Dict keys are
unique, so removing the first occurrence models the dict exactly. -/
def aerase {κ α : Type} [DecidableEq κ] : List (κ × α) → κ → List (κ × α)
  | [], _ => []
  | (k, w) :: rest, key => if k = key then rest else (k, w) :: aerase rest key

/-- State of CacheManager (src/crashscope/utils/cache.py): the internal map
from keys to (insertion instant, value) pairs, plus the configured default
timeout. -/
structure CacheManager (α : Type) where
  cache : List (String × (ℚ × α))
  default_timeout : Int

/-- The expiry timeout actually used by get and cleanup_expired.  The source
line is the Python expression: timeout or self.default_timeout, where timeout
is Optional[int]; both None and 0 are falsy, so a supplied 0 falls back to the
default. -/
def effectiveTimeout (timeout : Option Int) (default_timeout : Int) : Int :=
  match timeout with
  | none => default_timeout
  | some v => if v = 0 then default_timeout else v

/-- CacheManager.get: returns the cached value if present and not expired,
paired with the possibly mutated cache state (an expired entry is deleted). -/
def cacheGet {α : Type} (c : CacheManager α) (key : String) (timeout : Option Int)
    (now : ℚ) : Option α × CacheManager α :=
  match alookup c.cache key with
  | none => (none, c)
  | some (cache_time, value) =>
      let t := effectiveTimeout timeout c.default_timeout
      if now - cache_time > (t : ℚ) then
        (none, { c with cache := aerase c.cache key })
      else
        (some value, c)

/-- CacheManager.set: stores the value under the key with the current instant. -/
def cacheSet {α : Type} (c : CacheManager α) (key : String) (value : α)
    (now : ℚ) : CacheManager α :=
  { c with cache := ainsert c.cache key (now, value) }

/-- CacheManager.cleanup_expired: collects the keys of expired entries, deletes
each, and returns how many were removed, with the new cache state. -/
def cleanupExpired {α : Type} (c : CacheManager α) (timeout : Option Int)
    (now : ℚ) : Nat × CacheManager α :=
  let t := effectiveTimeout timeout c.default_timeout
  let expired_keys :=
    (c.cache.filter (fun e => decide (now - e.2.1 > (t : ℚ)))).map Prod.fst
  (expired_keys.length,
    { c with cache := expired_keys.foldl (fun m k => aerase m k) c.cache })

end CrashScope

namespace CrashScope

/-- C5 counterexample: with default timeout 600, an entry inserted at instant 0
and read at instant 5 with a caller-supplied timeout of 0 is returned, although
under the claimed semantics the effective timeout would be 0 and the entry
(age 5 > 0) would have expired.  The supplied 0 is falsy in Python and falls
back to the default. -/
theorem cache_timeout_zero_counterexample :
    (cacheGet (⟨[("k", ((0 : ℚ), (42 : Int)))], 600⟩ : CacheManager Int)
        "k" (some 0) 5).1 = some 42 ∧
    effectiveTimeout (some 0) 600 = 600 ∧
    ((5 : ℚ) - 0 > (0 : ℚ)) := by
  refine ⟨?_, rfl, by norm_num⟩
  simp [cacheGet, alookup, effectiveTimeout]
  norm_num

/-- C5 (amended): the effective timeout used by get and cleanup_expired equals
the caller-supplied timeout when one is supplied and nonzero; a supplied 0,
like an absent timeout, falls back to the configured default.  get returns a
present entry exactly when its age does not exceed this effective timeout, and
cleanup_expired counts exactly the entries whose age exceeds it. -/
theorem cache_effective_timeout_spec :
    (∀ d : Int, effectiveTimeout none d = d) ∧
    (∀ v d : Int, v ≠ 0 → effectiveTimeout (some v) d = v) ∧
    (∀ d : Int, effectiveTimeout (some 0) d = d) ∧
    (∀ (c : CacheManager Int) (key : String) (t : Option Int) (now tm : ℚ)
        (v : Int), alookup c.cache key = some (tm, v) →
      ((cacheGet c key t now).1 = some v ↔
        ¬ (now - tm > ((effectiveTimeout t c.default_timeout : Int) : ℚ)))) ∧
    (∀ (c : CacheManager Int) (t : Option Int) (now : ℚ),
      (cleanupExpired c t now).1 =
        (c.cache.filter (fun e =>
          decide (now - e.2.1 >
            ((effectiveTimeout t c.default_timeout : Int) : ℚ)))).length) := by
  refine ⟨fun d => rfl, fun v d hv => by simp [effectiveTimeout, hv],
    fun d => by simp [effectiveTimeout], ?_, ?_⟩
  · intro c key t now tm v h
    simp only [cacheGet, h]
    split
    · next hgt => simp [hgt]
    · next hle => simp [hle]
  · intro c t now
    simp [cleanupExpired]

/-- C5 witness: concrete instances of the amended effective-timeout behaviour. -/
theorem cache_effective_timeout_spec_witness :
    effectiveTimeout none 600 = 600 ∧
    effectiveTimeout (some 7) 600 = 7 ∧
    effectiveTimeout (some 0) 600 = 600 ∧
    (cacheGet (⟨[("k", ((0 : ℚ), (42 : Int)))], 600⟩ : CacheManager Int)
        "k" (some 7) 5).1 = some 42 := by
  refine ⟨cache_effective_timeout_spec.1 600,
    cache_effective_timeout_spec.2.1 7 600 (by decide),
    cache_effective_timeout_spec.2.2.1 600, ?_⟩
  refine (cache_effective_timeout_spec.2.2.2.1
    ⟨[("k", ((0 : ℚ), (42 : Int)))], 600⟩ "k" (some 7) 5 0 42 rfl).mpr ?_
  norm_num [effectiveTimeout]

/-- C6: a get never returns a value whose age exceeds the effective timeout;
when the entry found has expired, get deletes it and reports absent; when the
key is missing, get reports absent and leaves the map unchanged. -/
theorem cache_get_never_stale :
    ∀ (c : CacheManager Int) (key : String) (t : Option Int) (now : ℚ),
      (∀ v : Int, (cacheGet c key t now).1 = some v →
        ∃ tm : ℚ, alookup c.cache key = some (tm, v) ∧
          now - tm ≤ ((effectiveTimeout t c.default_timeout : Int) : ℚ)) ∧
      (∀ (tm : ℚ) (v : Int), alookup c.cache key = some (tm, v) →
        now - tm > ((effectiveTimeout t c.default_timeout : Int) : ℚ) →
        cacheGet c key t now = (none, { c with cache := aerase c.cache key })) ∧
      (alookup c.cache key = none → cacheGet c key t now = (none, c)) := by
  intro c key t now
  refine ⟨?_, ?_, ?_⟩
  · intro v hv
    unfold cacheGet at hv
    cases h : alookup c.cache key with
    | none => rw [h] at hv; simp at hv
    | some p =>
      obtain ⟨tm, w⟩ := p
      rw [h] at hv
      simp only at hv
      split at hv
      · simp at hv
      · next hle =>
        simp only [Option.some.injEq] at hv
        subst hv
        exact ⟨tm, rfl, not_lt.mp hle⟩
  · intro tm v h hgt
    unfold cacheGet
    rw [h]
    simp only []
    rw [if_pos hgt]
  · intro h
    unfold cacheGet
    rw [h]

/-- C6 witness: a concrete expired entry (inserted at 0, read at 100 with
default timeout 10) is deleted and reported absent. -/
theorem cache_get_never_stale_witness :
    cacheGet (⟨[("k", ((0 : ℚ), (7 : Int)))], 10⟩ : CacheManager Int)
      "k" none 100 = (none, (⟨[], 10⟩ : CacheManager Int)) := by
  have h := (cache_get_never_stale ⟨[("k", ((0 : ℚ), (7 : Int)))], 10⟩
    "k" none 100).2.1 0 7 rfl (by norm_num [effectiveTimeout])
  simpa [aerase] using h

/-- Weather feature record produced by WeatherFeatureExtractor
(src/crashscope/features/weather.py).  Numeric API fields are floats in the
source, modelled as rationals; weather_code is an int. -/
structure WeatherFeatures where
  temperature : ℚ
  precipitation : ℚ
  wind_speed : ℚ
  weather_code : Int
  weather_condition : String
  is_wet : Bool
deriving DecidableEq

/-- WeatherFeatureExtractor._map_weather_condition: weather code to Dutch
condition string. -/
def mapWeatherCondition (weather_code : Int) : String :=
  if weather_code ∈ ([61, 63, 65, 80, 81, 82] : List Int) then "Regen"
  else if weather_code ∈ ([45, 48] : List Int) then "Mist"
  else if weather_code ∈ ([71, 73, 75, 77, 85, 86] : List Int) then "Sneeuw"
  else "Droog"

/-- WeatherFeatureExtractor._get_default_weather: the fixed default profile
returned when the API fails. -/
def defaultWeather : WeatherFeatures :=
  { temperature := 10, precipitation := 0, wind_speed := 10,
    weather_code := 1, weather_condition := "Droog", is_wet := false }

/-- The current block of an Open-Meteo response body; every field may be
missing (the API may return a partial block). -/
structure CurrentBlock where
  temperature_2m : Option ℚ
  precipitation : Option ℚ
  wind_speed_10m : Option ℚ
  weathercode : Option Int

/-- A decoded weather response body: the current block itself may be absent
(a malformed body). -/
structure WeatherBody where
  current : Option CurrentBlock

/-- Outcome of the weather HTTP call as extract_features sees it: failure
covers transport errors (requests.RequestException), undecodable JSON
(ValueError) and any non-200 status; success carries the decoded body. -/
inductive WeatherResp where
  | failure
  | success (body : WeatherBody)

/-- WeatherFeatureExtractor._process_weather_data: builds the feature record
from a decoded body, substituting per-field defaults for missing fields, and
the full default profile when the current block is absent. -/
def processWeatherData (weather_data : WeatherBody) : WeatherFeatures :=
  match weather_data.current with
  | none => defaultWeather
  | some cur =>
      let temperature := cur.temperature_2m.getD 10
      let precipitation := cur.precipitation.getD 0
      let wind_speed := cur.wind_speed_10m.getD 10
      let weather_code := cur.weathercode.getD 1
      { temperature := temperature, precipitation := precipitation,
        wind_speed := wind_speed, weather_code := weather_code,
        weather_condition := mapWeatherCondition weather_code,
        is_wet := decide (precipitation > (1 : ℚ) / 10) }

/-- WeatherFeatureExtractor.extract_features as a state-passing function over
the cache: on cache hit return the cached record; on miss, a failed call
returns the default profile with the cache unchanged, while a 200 response is
processed and the result stored in the cache. -/
def weatherExtractFeatures (c : CacheManager WeatherFeatures) (cache_key : String)
    (now : ℚ) (resp : WeatherResp) : WeatherFeatures × CacheManager WeatherFeatures :=
  match cacheGet c cache_key none now with
  | (some cached_result, c1) => (cached_result, c1)
  | (none, c1) =>
      match resp with
      | .failure => (defaultWeather, c1)
      | .success weather_data =>
          let features := processWeatherData weather_data
          (features, cacheSet c1 cache_key features now)

end CrashScope

namespace CrashScope

/-- C4 counterexample: a 200 response whose body lacks the current block is a
malformed response, yet its default-profile result IS stored in the cache
(extract_features caches whatever _process_weather_data returns on any 200
response), contradicting the claim that a failure result is never cached. -/
theorem weather_malformed_response_cached_counterexample :
    (weatherExtractFeatures (⟨[], 600⟩ : CacheManager WeatherFeatures)
        "k" 0 (.success ⟨none⟩)).1 = defaultWeather ∧
    alookup (weatherExtractFeatures (⟨[], 600⟩ : CacheManager WeatherFeatures)
        "k" 0 (.success ⟨none⟩)).2.cache "k" = some (0, defaultWeather) := by
  constructor
  · rfl
  · rfl

/-- C4 (amended): on a cache miss, a transport error or non-success status
returns exactly the default weather profile and leaves the cache unchanged
(so a later retry queries upstream again); a 200 response is always processed
and its result cached, including the malformed-body case, where the processed
result is the default profile itself. -/
theorem weather_failure_handling :
    ∀ (c : CacheManager WeatherFeatures) (key : String) (now : ℚ),
      (cacheGet c key none now).1 = none →
      (weatherExtractFeatures c key now .failure =
        (defaultWeather, (cacheGet c key none now).2)) ∧
      (∀ body : WeatherBody, weatherExtractFeatures c key now (.success body) =
        (processWeatherData body,
          cacheSet (cacheGet c key none now).2 key (processWeatherData body) now)) ∧
      processWeatherData ⟨none⟩ = defaultWeather := by
  intro c key now hmiss
  have hpair : cacheGet c key none now = (none, (cacheGet c key none now).2) := by
    rw [← hmiss]
  refine ⟨?_, ?_, rfl⟩
  · unfold weatherExtractFeatures
    rw [hpair]
  · intro body
    unfold weatherExtractFeatures
    rw [hpair]

/-- C4 witness: on an empty cache, a failed weather call returns the default
profile and the cache stays empty. -/
theorem weather_failure_handling_witness :
    weatherExtractFeatures (⟨[], 600⟩ : CacheManager WeatherFeatures)
      "k" 0 .failure = (defaultWeather, (⟨[], 600⟩ : CacheManager WeatherFeatures)) := by
  have h := (weather_failure_handling ⟨[], 600⟩ "k" 0 rfl).1
  simpa [cacheGet, alookup] using h

/-- The fields of the engineered feature record that _calculate_risk_score and
the risk_factors labels in _process_incident (src/main.py) read.  speed_limit
and aantal_partijen are ints; temperature is a float, modelled as a rational;
area_type, lit and lichtgesteldheid are the enumerated strings produced by the
extractors. -/
structure FeatureRecord where
  speed_limit : Int
  is_wet : Bool
  temperature : ℚ
  is_night : Bool
  is_rush_hour : Bool
  area_type : String
  lit : String
  aantal_partijen : Int
  lichtgesteldheid : String
deriving DecidableEq

/-- Speed factor block of _calculate_risk_score (0-3 points). -/
def speedFactor (f : FeatureRecord) : Int :=
  if f.speed_limit > 100 then 3
  else if f.speed_limit > 70 then 2
  else if f.speed_limit > 50 then 1
  else 0

/-- Weather factor block of _calculate_risk_score (0-2 points). -/
def weatherFactor (f : FeatureRecord) : Int :=
  if f.is_wet ∨ f.temperature < 3 then 2
  else if f.temperature < 10 then 1
  else 0

/-- Time factor block of _calculate_risk_score (0-2 points). -/
def timeFactor (f : FeatureRecord) : Int :=
  if f.is_night then 2
  else if f.is_rush_hour then 1
  else 0

/-- Location factor block of _calculate_risk_score: two independent additive
conditions (0-2 points). -/
def locationFactor (f : FeatureRecord) : Int :=
  (if f.area_type = "Buiten" then 1 else 0) +
    (if f.lit = "no" ∨ f.lit = "unknown" then 1 else 0)

/-- Parties factor block of _calculate_risk_score (0-1 point). -/
def partiesFactor (f : FeatureRecord) : Int :=
  if f.aantal_partijen > 1 then 1 else 0

/-- The running sum accumulated by _calculate_risk_score before the final
clamp. -/
def rawRiskScore (f : FeatureRecord) : Int :=
  speedFactor f + weatherFactor f + timeFactor f + locationFactor f +
    partiesFactor f

/-- CrashScopeApp._calculate_risk_score: the accumulated sum clamped to a
maximum of 10. -/
def calculateRiskScore (f : FeatureRecord) : Int :=
  min (rawRiskScore f) 10

/-- The risk_level expression of _process_incident (src/main.py line 198). -/
def riskLevel (risk_score : Int) : String :=
  if risk_score ≥ 7 then "High"
  else if risk_score ≥ 4 then "Medium"
  else "Low"

/-- The speed_risk label of _process_incident (src/main.py line 202). -/
def speedRisk (f : FeatureRecord) : String :=
  if f.speed_limit > 80 then "High"
  else if f.speed_limit > 50 then "Medium"
  else "Low"

/-- The weather_risk label of _process_incident (src/main.py line 203). -/
def weatherRisk (f : FeatureRecord) : String :=
  if f.is_wet ∨ f.temperature < 3 then "High"
  else if f.temperature < 10 then "Medium"
  else "Low"

/-- The temporal_risk label of _process_incident (src/main.py line 204). -/
def temporalRisk (f : FeatureRecord) : String :=
  if f.is_night then "High"
  else if f.is_rush_hour then "Medium"
  else "Low"

/-- The location_risk label of _process_incident (src/main.py line 205). -/
def locationRisk (f : FeatureRecord) : String :=
  if f.area_type = "Buiten" then "Medium" else "Low"

/-- The visibility_risk label of _process_incident (src/main.py line 206). -/
def visibilityRisk (f : FeatureRecord) : String :=
  if f.lichtgesteldheid = "Duisternis" then "High" else "Low"

/-- The test vector of the spec: speed_limit 130, wet, night, rural (Buiten),
unlit, two parties; temperature, rush hour and lichtgesteldheid are left
free since the spec does not pin them down. -/
def maxRiskRecord (temperature : ℚ) (rush : Bool) (lich : String) : FeatureRecord :=
  { speed_limit := 130, is_wet := true, temperature := temperature,
    is_night := true, is_rush_hour := rush, area_type := "Buiten",
    lit := "no", aantal_partijen := 2, lichtgesteldheid := lich }

end CrashScope

namespace CrashScope

/-- C1: the risk score is deterministic, always lies in [0,10]; the spec test
vector receives the maximum contribution from every factor (3+2+2+2+1) and
scores exactly 10 with level High; the level is High iff score at least 7,
Medium iff score in [4,7), and Low iff score below 4. -/
theorem risk_score_spec :
    (∀ f g : FeatureRecord, f = g →
      calculateRiskScore f = calculateRiskScore g ∧
      riskLevel (calculateRiskScore f) = riskLevel (calculateRiskScore g)) ∧
    (∀ f : FeatureRecord, 0 ≤ calculateRiskScore f ∧ calculateRiskScore f ≤ 10) ∧
    (∀ (temperature : ℚ) (rush : Bool) (lich : String),
      speedFactor (maxRiskRecord temperature rush lich) = 3 ∧
      weatherFactor (maxRiskRecord temperature rush lich) = 2 ∧
      timeFactor (maxRiskRecord temperature rush lich) = 2 ∧
      locationFactor (maxRiskRecord temperature rush lich) = 2 ∧
      partiesFactor (maxRiskRecord temperature rush lich) = 1 ∧
      calculateRiskScore (maxRiskRecord temperature rush lich) = 10 ∧
      riskLevel (calculateRiskScore (maxRiskRecord temperature rush lich)) = "High") ∧
    (∀ s : Int, (riskLevel s = "High" ↔ 7 ≤ s) ∧
      (riskLevel s = "Medium" ↔ 4 ≤ s ∧ s < 7) ∧
      (riskLevel s = "Low" ↔ s < 4)) := by
  have hspeed : ∀ f : FeatureRecord, 0 ≤ speedFactor f ∧ speedFactor f ≤ 3 := by
    intro f; unfold speedFactor; split_ifs <;> omega
  have hweather : ∀ f : FeatureRecord, 0 ≤ weatherFactor f ∧ weatherFactor f ≤ 2 := by
    intro f; unfold weatherFactor; split_ifs <;> omega
  have htime : ∀ f : FeatureRecord, 0 ≤ timeFactor f ∧ timeFactor f ≤ 2 := by
    intro f; unfold timeFactor; split_ifs <;> omega
  have hloc : ∀ f : FeatureRecord, 0 ≤ locationFactor f ∧ locationFactor f ≤ 2 := by
    intro f; unfold locationFactor; split_ifs <;> omega
  have hparties : ∀ f : FeatureRecord, 0 ≤ partiesFactor f ∧ partiesFactor f ≤ 1 := by
    intro f; unfold partiesFactor; split_ifs <;> omega
  refine ⟨fun f g h => by rw [h]; exact ⟨rfl, rfl⟩, ?_, ?_, ?_⟩
  · intro f
    have h1 := hspeed f; have h2 := hweather f; have h3 := htime f
    have h4 := hloc f; have h5 := hparties f
    unfold calculateRiskScore rawRiskScore
    constructor
    · exact le_min (by omega) (by omega)
    · exact min_le_right _ _
  · intro temperature rush lich
    have h3 : speedFactor (maxRiskRecord temperature rush lich) = 3 := by
      unfold speedFactor maxRiskRecord; norm_num
    have h2 : weatherFactor (maxRiskRecord temperature rush lich) = 2 := by
      unfold weatherFactor maxRiskRecord; simp
    have ht : timeFactor (maxRiskRecord temperature rush lich) = 2 := by
      unfold timeFactor maxRiskRecord; simp
    have hl : locationFactor (maxRiskRecord temperature rush lich) = 2 := by
      unfold locationFactor maxRiskRecord; simp
    have hp : partiesFactor (maxRiskRecord temperature rush lich) = 1 := by
      unfold partiesFactor maxRiskRecord; norm_num
    have hs : calculateRiskScore (maxRiskRecord temperature rush lich) = 10 := by
      unfold calculateRiskScore rawRiskScore
      rw [h3, h2, ht, hl, hp]
      decide
    exact ⟨h3, h2, ht, hl, hp, hs, by rw [hs]; decide⟩
  · intro s
    unfold riskLevel
    refine ⟨?_, ?_, ?_⟩ <;> split_ifs <;>
      simp_all [String.ext_iff] <;> omega

/-- C1 witness: the spec test vector with temperature 10, no rush hour and
lichtgesteldheid Duisternis scores exactly 10 and is rated High; determinism
instantiated reflexively. -/
theorem risk_score_spec_witness :
    calculateRiskScore (maxRiskRecord 10 false "Duisternis") = 10 ∧
    riskLevel (calculateRiskScore (maxRiskRecord 10 false "Duisternis")) = "High" ∧
    calculateRiskScore (maxRiskRecord 10 false "Duisternis") =
      calculateRiskScore (maxRiskRecord 10 false "Duisternis") ∧
    (riskLevel 7 = "High" ↔ (7 : Int) ≤ 7) := by
  refine ⟨(risk_score_spec.2.2.1 10 false "Duisternis").2.2.2.2.2.1,
    (risk_score_spec.2.2.1 10 false "Duisternis").2.2.2.2.2.2,
    (risk_score_spec.1 (maxRiskRecord 10 false "Duisternis")
      (maxRiskRecord 10 false "Duisternis") rfl).1,
    (risk_score_spec.2.2.2 7).1⟩

/-- C10: each factor of _calculate_risk_score is bounded by its documented
maximum (3, 2, 2, 2, 1), the unclamped sum never exceeds 10, and therefore
the final clamp is the identity: the returned score equals the raw sum. -/
theorem raw_score_clamp_identity :
    ∀ f : FeatureRecord,
      speedFactor f ≤ 3 ∧ weatherFactor f ≤ 2 ∧ timeFactor f ≤ 2 ∧
      locationFactor f ≤ 2 ∧ partiesFactor f ≤ 1 ∧
      rawRiskScore f ≤ 10 ∧ calculateRiskScore f = rawRiskScore f := by
  intro f
  have h1 : speedFactor f ≤ 3 := by unfold speedFactor; split_ifs <;> omega
  have h2 : weatherFactor f ≤ 2 := by unfold weatherFactor; split_ifs <;> omega
  have h3 : timeFactor f ≤ 2 := by unfold timeFactor; split_ifs <;> omega
  have h4 : locationFactor f ≤ 2 := by unfold locationFactor; split_ifs <;> omega
  have h5 : partiesFactor f ≤ 1 := by unfold partiesFactor; split_ifs <;> omega
  have hsum : rawRiskScore f ≤ 10 := by unfold rawRiskScore; omega
  exact ⟨h1, h2, h3, h4, h5, hsum, min_eq_left hsum⟩

/-- C2 counterexample: a record with speed_limit 90 is labelled speed_risk
High although 90 is not above 100, so the label does not restate the numeric
tier threshold (the label uses 80, the score uses 100); and two records that
differ only in lit (yes versus no) get the same location_risk label, so the
label does not reflect the unlit condition that contributes a point to the
numeric score. -/
theorem risk_factor_labels_counterexample :
    speedRisk ⟨90, false, 10, false, false, "Binnen", "yes", 1, "Daglicht"⟩ = "High" ∧
    (90 : Int) ≤ 100 ∧
    locationRisk ⟨50, false, 10, false, false, "Binnen", "yes", 1, "Daglicht"⟩ =
      locationRisk ⟨50, false, 10, false, false, "Binnen", "no", 1, "Daglicht"⟩ ∧
    locationFactor ⟨50, false, 10, false, false, "Binnen", "yes", 1, "Daglicht"⟩ = 0 ∧
    locationFactor ⟨50, false, 10, false, false, "Binnen", "no", 1, "Daglicht"⟩ = 1 := by
  refine ⟨?_, by norm_num, ?_, ?_, ?_⟩ <;> decide

/-- C2 (amended): the weather, temporal and visibility labels restate the
conditions of their numeric tiers, but the speed label uses its own
thresholds (High above 80, Medium above 50), not the numeric tiers (100, 70),
and the location label reflects only the Rural condition, independent of the
lighting condition that also contributes a point to the numeric score. -/
theorem risk_factor_labels_spec :
    ∀ f : FeatureRecord,
      (speedRisk f = "High" ↔ f.speed_limit > 80) ∧
      (speedRisk f = "Medium" ↔ f.speed_limit > 50 ∧ f.speed_limit ≤ 80) ∧
      (speedRisk f = "Low" ↔ f.speed_limit ≤ 50) ∧
      (weatherRisk f = "High" ↔ (f.is_wet = true ∨ f.temperature < 3)) ∧
      (weatherRisk f = "Medium" ↔
        (f.is_wet = false ∧ 3 ≤ f.temperature ∧ f.temperature < 10)) ∧
      (temporalRisk f = "High" ↔ f.is_night = true) ∧
      (temporalRisk f = "Medium" ↔ (f.is_night = false ∧ f.is_rush_hour = true)) ∧
      (locationRisk f = "Medium" ↔ f.area_type = "Buiten") ∧
      (locationRisk ⟨f.speed_limit, f.is_wet, f.temperature, f.is_night,
          f.is_rush_hour, f.area_type, "yes", f.aantal_partijen,
          f.lichtgesteldheid⟩ =
        locationRisk ⟨f.speed_limit, f.is_wet, f.temperature, f.is_night,
          f.is_rush_hour, f.area_type, "no", f.aantal_partijen,
          f.lichtgesteldheid⟩) ∧
      (visibilityRisk f = "High" ↔ f.lichtgesteldheid = "Duisternis") := by
  intro f
  refine ⟨?_, ?_, ?_, ?_, ?_, ?_, ?_, ?_, rfl, ?_⟩
  · unfold speedRisk
    split_ifs <;> simp_all [String.ext_iff] <;> omega
  · unfold speedRisk
    split_ifs <;> simp_all [String.ext_iff] <;> omega
  · unfold speedRisk
    split_ifs <;> simp_all [String.ext_iff] <;> omega
  · unfold weatherRisk
    split_ifs with h1 h2 <;> simp_all [String.ext_iff]
  · unfold weatherRisk
    split_ifs with h1 h2
    · constructor
      · intro h; exact absurd h (by decide)
      · rintro ⟨hw, hge, hlt⟩
        rcases h1 with h1 | h1
        · rw [hw] at h1; exact absurd h1 (by decide)
        · linarith
    · constructor
      · intro _
        push_neg at h1
        exact ⟨by simpa using h1.1, h1.2, h2⟩
      · intro _; rfl
    · constructor
      · intro h; exact absurd h (by decide)
      · rintro ⟨hw, hge, hlt⟩; exact absurd hlt h2
  · unfold temporalRisk
    split_ifs <;> simp_all [String.ext_iff]
  · unfold temporalRisk
    split_ifs <;> simp_all [String.ext_iff]
  · unfold locationRisk
    split_ifs <;> simp_all [String.ext_iff]
  · unfold visibilityRisk
    split_ifs <;> simp_all [String.ext_iff]

/-- C2 witness: concrete label evaluations through the amended theorem. -/
theorem risk_factor_labels_spec_witness :
    (speedRisk ⟨90, false, 10, false, false, "Binnen", "yes", 1, "Daglicht"⟩ =
      "High" ↔ (90 : Int) > 80) ∧
    (locationRisk ⟨90, false, 10, false, false, "Binnen", "yes", 1, "Daglicht"⟩ =
      "Medium" ↔ ("Binnen" : String) = "Buiten") :=
  ⟨(risk_factor_labels_spec ⟨90, false, 10, false, false, "Binnen", "yes", 1,
      "Daglicht"⟩).1,
    (risk_factor_labels_spec ⟨90, false, 10, false, false, "Binnen", "yes", 1,
      "Daglicht"⟩).2.2.2.2.2.2.2.1⟩

/-- Replacement of every non-overlapping occurrence of a pattern, left to
right, over character lists; the fuel argument (instantiated with the length
of the list, which every step strictly decreases) only makes the recursion
structural. -/
def replaceAllAux (pat rep : List Char) : List Char → Nat → List Char
  | [], _ => []
  | l, 0 => l
  | c :: rest, fuel + 1 =>
      if pat ≠ [] ∧ (c :: rest).take pat.length = pat then
        rep ++ replaceAllAux pat rep ((c :: rest).drop pat.length) fuel
      else
        c :: replaceAllAux pat rep rest fuel

/-- Python str.replace(pat, rep) for a nonempty pattern, as used on the
maxspeed tag (the source only ever replaces the nonempty suffixes mph and
kmh). -/
def strReplace (s pat rep : String) : String :=
  ⟨replaceAllAux pat.data rep.data s.data s.data.length⟩

/-- Whitespace stripped by Python int() around the digits (the ASCII
whitespace characters; exotic unicode spaces are not modelled, no tag in the
claims uses them). -/
def isPySpace (c : Char) : Bool :=
  c = ' ' ∨ c = '\t' ∨ c = '\n' ∨ c = '\r' ∨ c = '\x0b' ∨ c = '\x0c'

/-- Value of a nonempty decimal digit string. -/
def digitsToNat (digits : List Char) : Nat :=
  digits.foldl (fun acc c => acc * 10 + (c.toNat - 48)) 0

/-- Python int(str) applied to a tag value: surrounding whitespace is
stripped, an optional sign is allowed, and the remainder must be a nonempty
digit string; anything else raises ValueError, modelled as none.  (Digit-group
underscores, accepted by Python, are not modelled; no tag in the claims uses
them.) -/
def pyParseInt (s : String) : Option Int :=
  let t := ((s.data.dropWhile isPySpace).reverse.dropWhile isPySpace).reverse
  match t with
  | '-' :: ds =>
      if ds ≠ [] ∧ ds.all Char.isDigit then some (-(digitsToNat ds : Int))
      else none
  | '+' :: ds =>
      if ds ≠ [] ∧ ds.all Char.isDigit then some ((digitsToNat ds : Int))
      else none
  | ds =>
      if ds ≠ [] ∧ ds.all Char.isDigit then some ((digitsToNat ds : Int))
      else none

/-- The tag set of an OSM way element; each tag the extractor reads may be
absent.  Tag values are free-form strings. -/
structure OsmTags where
  maxspeed : Option String
  highway : Option String
  lanes : Option String
  surface : Option String
  lit : Option String

/-- One element of an Overpass response; road.get with a tags default models
an element without tags as the all-absent tag set. -/
structure OsmElement where
  tags : OsmTags

/-- Road infrastructure feature record (src/crashscope/features/road.py). -/
structure RoadFeatures where
  speed_limit : Int
  road_type : String
  lanes : Int
  surface : String
  lit : String
deriving DecidableEq

/-- RoadFeatureExtractor._get_default_road_features. -/
def defaultRoadFeatures : RoadFeatures :=
  { speed_limit := 50, road_type := "residential", lanes := 2,
    surface := "asphalt", lit := "unknown" }

/-- The road-type to default-speed substitution table of _process_osm_data;
unknown types fall back to 50. -/
def speedDefaults (highway_type : String) : Int :=
  if highway_type = "motorway" then 130
  else if highway_type = "trunk" then 100
  else if highway_type = "primary" then 80
  else if highway_type = "secondary" then 80
  else if highway_type = "tertiary" then 60
  else if highway_type = "residential" then 30
  else if highway_type = "living_street" then 15
  else 50

/-- RoadFeatureExtractor._process_osm_data: starts from the defaults, parses
maxspeed after stripping the unit suffixes mph and kmh, records the highway
tag as road_type and, when the speed limit still equals 50, substitutes the
table speed for the road type; then reads lanes, surface and lit. -/
def processOsmData (elements : List OsmElement) : RoadFeatures :=
  match elements with
  | [] => defaultRoadFeatures
  | road :: _ =>
      let tags := road.tags
      let f1 :=
        match tags.maxspeed with
        | some ms =>
            match pyParseInt (strReplace (strReplace ms "mph" "") "kmh" "") with
            | some v => { defaultRoadFeatures with speed_limit := v }
            | none => defaultRoadFeatures
        | none => defaultRoadFeatures
      let f2 :=
        match tags.highway with
        | some highway_type =>
            let fa := { f1 with road_type := highway_type }
            if fa.speed_limit = 50 then
              { fa with speed_limit := speedDefaults highway_type }
            else fa
        | none => f1
      let f3 :=
        match tags.lanes with
        | some ls =>
            match pyParseInt ls with
            | some n => { f2 with lanes := n }
            | none => f2
        | none => f2
      let f4 :=
        match tags.surface with
        | some s => { f3 with surface := s }
        | none => f3
      match tags.lit with
      | some l => { f4 with lit := if l = "yes" then "yes" else "no" }
      | none => f4

/-- CrashScopeFeatureEngine properties bag of the incident payload, as read by
_estimate_parties: only the iconCategory code matters, and it may be absent. -/
structure IncidentProps where
  iconCategory : Option Int
deriving DecidableEq

/-- The incident payload passed to engineer_features: the properties bag
itself may be absent (incident_data.get with an empty-dict default). -/
structure IncidentData where
  properties : Option IncidentProps
deriving DecidableEq

/-- The category-code extraction line of _estimate_parties:
incident_data.get, properties-bag default empty, then iconCategory lookup. -/
def iconCategoryOf (incident_data : IncidentData) : Option Int :=
  match incident_data.properties with
  | some props => props.iconCategory
  | none => none

/-- CrashScopeFeatureEngine._estimate_parties: category code 1 means two
parties, anything else (including an absent code, which reads as None) means
one.  The except branch returning 2 is unreachable for dict-shaped payloads,
since dict.get never raises KeyError or TypeError here. -/
def estimateParties (incident_data : IncidentData) : Int :=
  if iconCategoryOf incident_data = some 1 then 2 else 1

/-- The aantal_partijen assignment of engineer_features: a truthy incident
payload is mapped through _estimate_parties, a missing (or empty, hence
falsy) payload defaults to 2. -/
def engineerParties (incident_data : Option IncidentData) : Int :=
  match incident_data with
  | some d => estimateParties d
  | none => 2

end CrashScope

namespace CrashScope

/-- C3 counterexample: an element whose maxspeed tag parses to exactly 50 and
that carries a highway tag does not keep the parsed value: the substitution
guard compares the current speed to the default 50, so the table speed for
motorway (130) overrides the explicitly parsed 50. -/
theorem parsed_speed_fifty_overridden_counterexample :
    pyParseInt (strReplace (strReplace "50" "mph" "") "kmh" "") = some 50 ∧
    (processOsmData [⟨⟨some "50", some "motorway", none, none, none⟩⟩]).speed_limit
      = 130 ∧
    ¬ (processOsmData [⟨⟨some "50", some "motorway", none, none, none⟩⟩]).speed_limit
      = 50 := by
  refine ⟨?_, ?_, ?_⟩ <;> decide

/-- C3 (amended): the road-type table is applied exactly when the speed limit
still equals the default 50 after the maxspeed parse: a parsed value other
than 50 is kept verbatim, while an absent maxspeed tag, a maxspeed parsing to
exactly 50 and an unparseable maxspeed all take the table speed of the
carried highway type. -/
theorem speed_substitution_spec :
    (∀ (rest : List OsmElement) (tags : OsmTags) (ms hw : String) (v : Int),
      tags.maxspeed = some ms →
      pyParseInt (strReplace (strReplace ms "mph" "") "kmh" "") = some v →
      v ≠ 50 →
      tags.highway = some hw →
      (processOsmData (⟨tags⟩ :: rest)).speed_limit = v) ∧
    (∀ (rest : List OsmElement) (tags : OsmTags) (hw : String),
      tags.maxspeed = none →
      tags.highway = some hw →
      (processOsmData (⟨tags⟩ :: rest)).speed_limit = speedDefaults hw) ∧
    (∀ (rest : List OsmElement) (tags : OsmTags) (ms hw : String),
      tags.maxspeed = some ms →
      pyParseInt (strReplace (strReplace ms "mph" "") "kmh" "") = some 50 →
      tags.highway = some hw →
      (processOsmData (⟨tags⟩ :: rest)).speed_limit = speedDefaults hw) ∧
    (∀ (rest : List OsmElement) (tags : OsmTags) (ms hw : String),
      tags.maxspeed = some ms →
      pyParseInt (strReplace (strReplace ms "mph" "") "kmh" "") = none →
      tags.highway = some hw →
      (processOsmData (⟨tags⟩ :: rest)).speed_limit = speedDefaults hw) := by
  refine ⟨?_, ?_, ?_, ?_⟩
  · intro rest tags ms hw v hms hparse hne hhw
    obtain ⟨ms?, hw?, ln?, sf?, lt?⟩ := tags
    simp only at hms hhw
    subst hms; subst hhw
    simp only [processOsmData, hparse]
    repeat' split
    all_goals simp_all
  · intro rest tags hw hms hhw
    obtain ⟨ms?, hw?, ln?, sf?, lt?⟩ := tags
    simp only at hms hhw
    subst hms; subst hhw
    simp only [processOsmData]
    repeat' split
    all_goals simp_all [defaultRoadFeatures]
  · intro rest tags ms hw hms hparse hhw
    obtain ⟨ms?, hw?, ln?, sf?, lt?⟩ := tags
    simp only at hms hhw
    subst hms; subst hhw
    simp only [processOsmData, hparse]
    repeat' split
    all_goals simp_all
  · intro rest tags ms hw hms hparse hhw
    obtain ⟨ms?, hw?, ln?, sf?, lt?⟩ := tags
    simp only at hms hhw
    subst hms; subst hhw
    simp only [processOsmData, hparse]
    repeat' split
    all_goals simp_all [defaultRoadFeatures]

/-- C3 witness: a parsed maxspeed of 80 on a motorway is kept; an absent
maxspeed on a motorway takes the table speed 130; a maxspeed parsing to
exactly 50 on a trunk road takes the table speed 100; an unparseable maxspeed
on a residential road takes the table speed 30. -/
theorem speed_substitution_spec_witness :
    (processOsmData [⟨⟨some "80", some "motorway", none, none, none⟩⟩]).speed_limit
      = 80 ∧
    (processOsmData [⟨⟨none, some "motorway", none, none, none⟩⟩]).speed_limit
      = speedDefaults "motorway" ∧
    (processOsmData [⟨⟨some "50", some "trunk", none, none, none⟩⟩]).speed_limit
      = speedDefaults "trunk" ∧
    (processOsmData [⟨⟨some "fast", some "residential", none, none, none⟩⟩]).speed_limit
      = speedDefaults "residential" :=
  ⟨speed_substitution_spec.1 [] ⟨some "80", some "motorway", none, none, none⟩
      "80" "motorway" 80 rfl (by decide) (by decide) rfl,
    speed_substitution_spec.2.1 [] ⟨none, some "motorway", none, none, none⟩
      "motorway" rfl rfl,
    speed_substitution_spec.2.2.1 [] ⟨some "50", some "trunk", none, none, none⟩
      "50" "trunk" rfl (by decide) rfl,
    speed_substitution_spec.2.2.2 []
      ⟨some "fast", some "residential", none, none, none⟩
      "fast" "residential" rfl (by decide) rfl⟩

/-- C8 counterexample: an incident payload whose properties bag lacks the
iconCategory code yields one party, not the claimed default of 2: the absent
code reads as None, which is not an error, and None is not code 1. -/
theorem parties_absent_code_counterexample :
    engineerParties (some ⟨some ⟨none⟩⟩) = 1 ∧
    ¬ engineerParties (some ⟨some ⟨none⟩⟩) = 2 := by
  refine ⟨?_, ?_⟩ <;> decide

/-- C8 (amended): with incident data, category code 1 gives two parties and
any other outcome of the code extraction (a different code, or an absent code
reading as None) gives one; without incident data the default is two. -/
theorem parties_estimate_spec :
    engineerParties none = 2 ∧
    (∀ d : IncidentData, iconCategoryOf d = some 1 →
      engineerParties (some d) = 2) ∧
    (∀ d : IncidentData, iconCategoryOf d ≠ some 1 →
      engineerParties (some d) = 1) ∧
    (∀ d : IncidentData, d.properties = some ⟨none⟩ →
      engineerParties (some d) = 1) := by
  refine ⟨rfl, ?_, ?_, ?_⟩
  · intro d h
    simp [engineerParties, estimateParties, h]
  · intro d h
    simp [engineerParties, estimateParties, h]
  · intro d h
    simp [engineerParties, estimateParties, iconCategoryOf, h]

/-- C8 witness: code 1 gives two parties; code 3 gives one. -/
theorem parties_estimate_spec_witness :
    engineerParties (some ⟨some ⟨some 1⟩⟩) = 2 ∧
    engineerParties (some ⟨some ⟨some 3⟩⟩) = 1 ∧
    engineerParties none = 2 :=
  ⟨parties_estimate_spec.2.1 ⟨some ⟨some 1⟩⟩ rfl,
    parties_estimate_spec.2.2.1 ⟨some ⟨some 3⟩⟩ (by decide),
    parties_estimate_spec.1⟩

end CrashScope

namespace CrashScope

/-- A JSON-like value standing for the geometry coordinates field: either a
number or an array.  Indexing an array out of range raises IndexError and
indexing a number raises TypeError; extract_coordinates catches both, so both
are modelled as none. -/
inductive JVal where
  | num (q : ℚ)
  | arr (elems : List JVal)

/-- Python subscript v[i] under the try block of extract_coordinates. -/
def jIndex : JVal → Nat → Option JVal
  | .num _, _ => none
  | .arr elems, i => elems.get? i

/-- The geometry object of an incident: its type string and its coordinates
value (src/crashscope/api/tomtom.py). -/
structure Geometry where
  gtype : String
  coordinates : JVal

/-- TomTomClient.extract_coordinates: for a Point geometry reads coordinates
0 and 1 as longitude and latitude; for a LineString reads entries 0 and 1 of
the first vertex; any other geometry type yields None, as does any indexing
failure caught by the except clause. -/
def extractCoordinates (geometry : Geometry) : Option (JVal × JVal) :=
  if geometry.gtype = "Point" then
    match jIndex geometry.coordinates 0, jIndex geometry.coordinates 1 with
    | some longitude, some latitude => some (latitude, longitude)
    | _, _ => none
  else if geometry.gtype = "LineString" then
    match jIndex geometry.coordinates 0 with
    | some v0 =>
        match jIndex v0 0, jIndex v0 1 with
        | some longitude, some latitude => some (latitude, longitude)
        | _, _ => none
    | none => none
  else none

end CrashScope

namespace CrashScope

/-- C9: a Point geometry holding the pair lon, lat and a LineString geometry
whose first vertex is that same pair yield the identical extracted pair
(lat, lon); any geometry whose type is neither Point nor LineString yields
absent. -/
theorem coordinates_point_linestring_agree :
    ∀ (lon lat : ℚ) (rest : List JVal) (g : Geometry),
      extractCoordinates ⟨"Point", .arr [.num lon, .num lat]⟩ =
        some (.num lat, .num lon) ∧
      extractCoordinates ⟨"LineString", .arr (.arr [.num lon, .num lat] :: rest)⟩ =
        some (.num lat, .num lon) ∧
      extractCoordinates ⟨"Point", .arr [.num lon, .num lat]⟩ =
        extractCoordinates ⟨"LineString", .arr (.arr [.num lon, .num lat] :: rest)⟩ ∧
      (g.gtype ≠ "Point" → g.gtype ≠ "LineString" → extractCoordinates g = none) := by
  intro lon lat rest g
  refine ⟨rfl, rfl, rfl, ?_⟩
  intro hp hl
  unfold extractCoordinates
  rw [if_neg hp, if_neg hl]

/-- C9 witness: the Amsterdam test pair of the test suite, and a Polygon
geometry yielding absent. -/
theorem coordinates_point_linestring_agree_witness :
    extractCoordinates ⟨"Point", .arr [.num (49041 / 10000), .num (523676 / 10000)]⟩ =
      extractCoordinates ⟨"LineString",
        .arr [.arr [.num (49041 / 10000), .num (523676 / 10000)]]⟩ ∧
    extractCoordinates ⟨"Polygon", .arr []⟩ = none :=
  ⟨(coordinates_point_linestring_agree (49041 / 10000) (523676 / 10000) []
      ⟨"Polygon", .arr []⟩).2.2.1,
    (coordinates_point_linestring_agree 0 0 [] ⟨"Polygon", .arr []⟩).2.2.2
      (by decide) (by decide)⟩

/-- Geometry coordinates of an incident for deduplication purposes: a flat
list (first element a number) or a nested list of vertices.  A missing
geometry or coordinates field reads as the empty flat list via dict.get
defaults. -/
inductive IncidentCoords where
  | flat (cs : List ℚ)
  | nested (cs : List (List ℚ))
deriving DecidableEq

/-- An incident as the deduplicator sees it: the geometry coordinates (a flat
number list for a Point, a nested list for a LineString), the iconCategory
code from the properties bag (absent reads as None), and the rest of the
incident payload, opaque to the key, carried along unmodified. -/
structure Incident where
  coords : IncidentCoords
  iconCategory : Option Int
  payload : String
deriving DecidableEq

end CrashScope

namespace CrashScope

/-- The deduplication key of CrashScopeApp._generate_incident_key: a flat
nonempty coordinate list becomes a one-element tuple of tuples, a nested list
is converted vertex by vertex, an empty list becomes the empty tuple; the key
pairs this with the iconCategory code. -/
def generateIncidentKey (incident : Incident) : List (List ℚ) × Option Int :=
  match incident.coords with
  | .flat cs => if cs = [] then ([], incident.iconCategory)
      else ([cs], incident.iconCategory)
  | .nested cs => (cs, incident.iconCategory)

/-- One iteration of the loop of CrashScopeApp._deduplicate_incidents: insert
the incident under its key only if the key is not yet present. -/
def dedupStep (acc : List ((List (List ℚ) × Option Int) × Incident))
    (incident : Incident) : List ((List (List ℚ) × Option Int) × Incident) :=
  if (alookup acc (generateIncidentKey incident)).isSome then acc
  else acc ++ [(generateIncidentKey incident, incident)]

/-- CrashScopeApp._deduplicate_incidents: fold the incidents in encounter
order into an insertion-ordered dict keyed by the deduplication key. -/
def deduplicateIncidents (incidents : List Incident) :
    List ((List (List ℚ) × Option Int) × Incident) :=
  incidents.foldl dedupStep []

/-- Lookup distributes over append of association lists: the left list wins. -/
theorem alookup_append {κ α : Type} [DecidableEq κ]
    (l1 l2 : List (κ × α)) (key : κ) :
    alookup (l1 ++ l2) key =
      match alookup l1 key with
      | some v => some v
      | none => alookup l2 key := by
  induction l1 with
  | nil => rfl
  | cons hd tl ih =>
      obtain ⟨k, v⟩ := hd
      by_cases h : k = key
      · simp [alookup, h]
      · simp [alookup, h, ih]

/-- The dedup fold looks up to the first matching incident of the remaining
list, unless the accumulator already holds the key. -/
theorem foldl_dedupStep_alookup :
    ∀ (incidents : List Incident)
      (acc : List ((List (List ℚ) × Option Int) × Incident))
      (key : List (List ℚ) × Option Int),
      alookup (incidents.foldl dedupStep acc) key =
        match alookup acc key with
        | some v => some v
        | none =>
            incidents.find? (fun i => decide (generateIncidentKey i = key)) := by
  intro incidents
  induction incidents with
  | nil =>
      intro acc key
      cases h : alookup acc key <;> simp [List.foldl_nil, List.find?, h]
  | cons hd tl ih =>
      intro acc key
      rw [List.foldl_cons, ih]
      unfold dedupStep
      by_cases hseen : (alookup acc (generateIncidentKey hd)).isSome
      · rw [if_pos hseen]
        cases hacc : alookup acc key with
        | some v => rfl
        | none =>
            have hne : ¬ generateIncidentKey hd = key := by
              intro heq
              rw [heq, hacc] at hseen
              simp at hseen
            simp [List.find?, hne]
      · rw [if_neg hseen]
        rw [alookup_append]
        cases hacc : alookup acc key with
        | some v => rfl
        | none =>
            by_cases hk : generateIncidentKey hd = key
            · simp [alookup, hk, List.find?]
            · simp [alookup, hk, List.find?]

end CrashScope

namespace CrashScope

/-- C7: deduplication keeps, for every key, exactly the first incident of the
input in encounter order, with its data unmodified (later duplicates are
dropped, never merged); two incidents with identical geometry coordinates and
category code always receive the same key and hence collapse. -/
theorem dedup_first_wins :
    ∀ (incidents : List Incident) (key : List (List ℚ) × Option Int),
      alookup (deduplicateIncidents incidents) key =
        incidents.find? (fun i => decide (generateIncidentKey i = key)) ∧
      (∀ i j : Incident, i.coords = j.coords →
        i.iconCategory = j.iconCategory →
        generateIncidentKey i = generateIncidentKey j) := by
  intro incidents key
  constructor
  · rw [deduplicateIncidents, foldl_dedupStep_alookup]
    rfl
  · intro i j hc hic
    unfold generateIncidentKey
    rw [hc, hic]

/-- C7 witness: two incidents with the same Point coordinates and category
code but different payloads collapse to the first; its payload is retained. -/
theorem dedup_first_wins_witness :
    alookup (deduplicateIncidents
        [⟨.flat [4, 52], some 1, "first"⟩, ⟨.flat [4, 52], some 1, "second"⟩])
        ([[4, 52]], some 1) = some ⟨.flat [4, 52], some 1, "first"⟩ ∧
    generateIncidentKey ⟨.flat [4, 52], some 1, "first"⟩ =
      generateIncidentKey ⟨.flat [4, 52], some 1, "second"⟩ := by
  constructor
  · rw [(dedup_first_wins
      [⟨.flat [4, 52], some 1, "first"⟩, ⟨.flat [4, 52], some 1, "second"⟩]
      ([[4, 52]], some 1)).1]
    decide
  · exact (dedup_first_wins [] ([], none)).2
      ⟨.flat [4, 52], some 1, "first"⟩ ⟨.flat [4, 52], some 1, "second"⟩ rfl rfl

end CrashScope
